import Mathlib

/-!
Verification development for the per-unit calculator repository
(`src/app.py`).  The numeric core is shallowly embedded: the per-unit
conversion functions `to_pu` / `from_pu`, the per-km preprocessing and the
capacitance unit converter are embedded over the rationals (the Python code
performs only field operations on its float inputs, so the rational
embedding models its arithmetic exactly); the base derivation
`calculate_base_values`, which uses `math.sqrt(3)`, is embedded over the
reals.  Python float division by zero raises `ZeroDivisionError`, so code
that can divide by zero is embedded as an `Option`-valued function where
`none` models the raised exception; Python truthiness `if x` on a float is
embedded as `x ≠ 0`.
-/

/-- Shallow embedding of `to_pu` (src/app.py lines 50–61).  The
`quantity_type` string dispatch and the truthiness zero-guards
(`value / Z_base if Z_base else 0`) are reproduced exactly; every division
in the source is guarded, so the embedding is a total function. -/
def to_pu (value : ℚ) (Z_base I_base V_base : ℚ) (quantity_type : String) : ℚ :=
  if quantity_type = "Resistance" ∨ quantity_type = "Reactance" ∨
      quantity_type = "Impedance" then
    (if Z_base ≠ 0 then value / Z_base else 0)
  else if quantity_type = "Susceptance" then
    (let B_base : ℚ := if Z_base ≠ 0 then 1 / Z_base else 0
     if B_base ≠ 0 then value / B_base else 0)
  else if quantity_type = "Voltage" then
    (if V_base ≠ 0 then value / V_base else 0)
  else if quantity_type = "Current" then
    (if I_base ≠ 0 then value / I_base else 0)
  else 0

/-- Shallow embedding of `from_pu` (src/app.py lines 63–74), with the same
string dispatch and truthiness zero-guards as `to_pu`. -/
def from_pu (pu_value : ℚ) (Z_base I_base V_base : ℚ) (quantity_type : String) : ℚ :=
  if quantity_type = "Resistance" ∨ quantity_type = "Reactance" ∨
      quantity_type = "Impedance" then
    (if Z_base ≠ 0 then pu_value * Z_base else 0)
  else if quantity_type = "Susceptance" then
    (let B_base : ℚ := if Z_base ≠ 0 then 1 / Z_base else 0
     if B_base ≠ 0 then pu_value * B_base else 0)
  else if quantity_type = "Voltage" then
    (if V_base ≠ 0 then pu_value * V_base else 0)
  else if quantity_type = "Current" then
    (if I_base ≠ 0 then pu_value * I_base else 0)
  else 0

/-- Shallow embedding of `calculate_base_values` (src/app.py lines 44–47).
The first line `Z_base = (V_base ** 2) / S_base` raises `ZeroDivisionError`
when `S_base == 0`, and the second line
`I_base = S_base / (math.sqrt(3) * V_base)` raises when
`math.sqrt(3) * V_base == 0`; a raised exception is modelled as `none`.
There is no zero-guard in this function in the source. -/
noncomputable def calculate_base_values (S_base V_base : ℝ) : Option (ℝ × ℝ) :=
  if S_base = 0 then none
  else if Real.sqrt 3 * V_base = 0 then none
  else some (V_base ^ 2 / S_base, S_base / (Real.sqrt 3 * V_base))

/-- Shallow embedding of the per-km preprocessing expression
`val * line_length if qty in ["Resistance","Reactance","Susceptance"] and
per_km else val` (src/app.py line 138). -/
def per_km_actual (val line_length : ℚ) (per_km : Bool) (qty : String) : ℚ :=
  if qty ∈ ["Resistance", "Reactance", "Susceptance"] ∧ per_km = true then
    val * line_length
  else val

/-- The capacitance scale table `UNIT_CATEGORIES["Capacitance"]["units"]`
(src/app.py lines 26–33). -/
def capacitance_units : List (String × ℚ) :=
  [("Farads (F)", 1), ("Millifarads (mF)", 1e-3), ("Microfarads (μF)", 1e-6),
   ("Nanofarads (nF)", 1e-9), ("Picofarads (pF)", 1e-12)]

/-- Shallow embedding of the conversion computed by
`render_capacitance_converter` (src/app.py lines 232–233):
`base_val = value * units[from_unit]` (pivot through Farads) followed by
`result = base_val / units[to_unit]`.  The spec calls this `convertUnits`. -/
def convertUnits (value fromScale toScale : ℚ) : ℚ :=
  value * fromScale / toScale

/-- One row of the per-unit batch: the identity triple (line, sequence,
quantity kind) together with the (actual, per-unit) value pair stored into
`line_result` by `render_per_unit_calculator` (src/app.py lines 144–145). -/
structure LineEntry where
  line : ℕ
  seq : String
  kind : String
  actual : ℚ
  pu : ℚ

/-- The fixed quantity-kind list iterated by the batch loop
(src/app.py line 132). -/
def quantities : List String :=
  ["Resistance", "Reactance", "Susceptance", "Voltage", "Current"]

/-- Shallow embedding of the result-building loop of
`render_per_unit_calculator` (src/app.py lines 128–146):
`for line_idx in range(1, num_lines + 1): for seq in sequences: for qty in
[...]`.  The user-entered number for each (line, sequence, quantity) cell is
modelled by the function `entry_val`; `actual_to_pu` models
`calc_mode == "Actual → PU"`.  In that mode the entered value goes through
the per-km preprocessing (line 138) and then `to_pu` (line 139); otherwise
the entered value is the per-unit value and `from_pu` derives the actual
(line 143). -/
def render_results (num_lines : ℕ) (sequences : List String)
    (actual_to_pu per_km : Bool) (line_length Z_base I_base V_base : ℚ)
    (entry_val : ℕ → String → String → ℚ) : List LineEntry :=
  (List.range' 1 num_lines).flatMap fun line_idx =>
    sequences.flatMap fun seq =>
      quantities.map fun qty =>
        if actual_to_pu then
          let actual_val := per_km_actual (entry_val line_idx seq qty) line_length per_km qty
          ⟨line_idx, seq, qty, actual_val, to_pu actual_val Z_base I_base V_base qty⟩
        else
          let pu_val := entry_val line_idx seq qty
          ⟨line_idx, seq, qty, from_pu pu_val Z_base I_base V_base qty, pu_val⟩

/-- The row identity described in the spec: the (line, sequence, kind)
triple of a `LineEntry`. -/
def entryId (e : LineEntry) : ℕ × String × String :=
  (e.line, e.seq, e.kind)

/-- Helper: the length of a `flatMap` whose pieces all have length `c`. -/
theorem length_flatMap_const {α β : Type} (l : List α) (f : α → List β) (c : ℕ)
    (h : ∀ a ∈ l, (f a).length = c) : (l.flatMap f).length = l.length * c := by
  induction l with
  | nil => simp
  | cons a t ih =>
      simp only [List.flatMap_cons, List.length_append, List.length_cons]
      rw [h a (by simp), ih (fun x hx => h x (by simp [hx]))]
      ring

/-- Helper: the fixed quantity list has no duplicates. -/
theorem quantities_nodup : quantities.Nodup := by decide

/-- C1: for each of the six quantity kinds, when the relevant base
(Z_base, 1/Z_base, V_base or I_base respectively) is nonzero and the value
is nonnegative, `from_pu` inverts `to_pu` exactly over the rational
embedding. -/
theorem to_from_pu_round_trip (v Z I V : ℚ) (hv : 0 ≤ v) :
    (Z ≠ 0 → from_pu (to_pu v Z I V "Resistance") Z I V "Resistance" = v) ∧
    (Z ≠ 0 → from_pu (to_pu v Z I V "Reactance") Z I V "Reactance" = v) ∧
    (Z ≠ 0 → from_pu (to_pu v Z I V "Impedance") Z I V "Impedance" = v) ∧
    (1 / Z ≠ 0 → from_pu (to_pu v Z I V "Susceptance") Z I V "Susceptance" = v) ∧
    (V ≠ 0 → from_pu (to_pu v Z I V "Voltage") Z I V "Voltage" = v) ∧
    (I ≠ 0 → from_pu (to_pu v Z I V "Current") Z I V "Current" = v) := by
  refine ⟨fun h => ?_, fun h => ?_, fun h => ?_, fun h => ?_, fun h => ?_, fun h => ?_⟩
  · simp [to_pu, from_pu, h]
  · simp [to_pu, from_pu, h]
  · simp [to_pu, from_pu, h]
  · have hZ : Z ≠ 0 := fun h0 => h (by simp [h0])
    simp [to_pu, from_pu, hZ, h]
  · simp [to_pu, from_pu, h]
  · simp [to_pu, from_pu, h]

/-- Witness for C1 at v = 3, Z_base = 2, I_base = 5, V_base = 7. -/
theorem to_from_pu_round_trip_witness :
    from_pu (to_pu 3 2 5 7 "Resistance") 2 5 7 "Resistance" = 3 ∧
    from_pu (to_pu 3 2 5 7 "Reactance") 2 5 7 "Reactance" = 3 ∧
    from_pu (to_pu 3 2 5 7 "Impedance") 2 5 7 "Impedance" = 3 ∧
    from_pu (to_pu 3 2 5 7 "Susceptance") 2 5 7 "Susceptance" = 3 ∧
    from_pu (to_pu 3 2 5 7 "Voltage") 2 5 7 "Voltage" = 3 ∧
    from_pu (to_pu 3 2 5 7 "Current") 2 5 7 "Current" = 3 := by
  have h := to_from_pu_round_trip 3 2 5 7 (by norm_num)
  exact ⟨h.1 (by norm_num), h.2.1 (by norm_num), h.2.2.1 (by norm_num),
    h.2.2.2.1 (by norm_num), h.2.2.2.2.1 (by norm_num), h.2.2.2.2.2 (by norm_num)⟩

/-- C2: for positive bases, `calculate_base_values` returns the pair
(V_base² / S_base, S_base / (√3 · V_base)); at (100, 13.8) this gives
Z_base = 1.9044 exactly and I_base within 0.001 of 4.1837. -/
theorem calculate_base_values_spec :
    (∀ S V : ℝ, 0 < S → 0 < V →
      calculate_base_values S V = some (V ^ 2 / S, S / (Real.sqrt 3 * V))) ∧
    (∃ Z I : ℝ, calculate_base_values 100 13.8 = some (Z, I) ∧
      Z = 1.9044 ∧ |I - 4.1837| < 1 / 1000) := by
  have hgen : ∀ S V : ℝ, 0 < S → 0 < V →
      calculate_base_values S V = some (V ^ 2 / S, S / (Real.sqrt 3 * V)) := by
    intro S V hS hV
    have hd : Real.sqrt 3 * V ≠ 0 :=
      mul_ne_zero (ne_of_gt (Real.sqrt_pos.mpr (by norm_num))) (ne_of_gt hV)
    simp [calculate_base_values, hS.ne', hd]
  refine ⟨hgen, (13.8 : ℝ) ^ 2 / 100, 100 / (Real.sqrt 3 * 13.8),
    hgen 100 13.8 (by norm_num) (by norm_num), by norm_num, ?_⟩
  have hs1 : (1.732 : ℝ) < Real.sqrt 3 :=
    (Real.lt_sqrt (by norm_num)).mpr (by norm_num)
  have hs2 : Real.sqrt 3 < 1.7321 :=
    (Real.sqrt_lt' (by norm_num)).mpr (by norm_num)
  have hpos : (0 : ℝ) < Real.sqrt 3 * 13.8 := by nlinarith
  have h1 : 100 / (Real.sqrt 3 * 13.8) < 4.1847 := by
    rw [div_lt_iff₀ hpos]
    nlinarith
  have h2 : (4.1827 : ℝ) < 100 / (Real.sqrt 3 * 13.8) := by
    rw [lt_div_iff₀ hpos]
    nlinarith
  rw [abs_sub_lt_iff]
  constructor <;> nlinarith

/-- Witness for C2 at S_base = 50, V_base = 10. -/
theorem calculate_base_values_spec_witness :
    calculate_base_values 50 10 = some ((10 : ℝ) ^ 2 / 50, 50 / (Real.sqrt 3 * 10)) :=
  calculate_base_values_spec.1 50 10 (by norm_num) (by norm_num)

/-- C3 counterexample: at S_base = 0 (and any V_base, here 13.8) the first
line of `calculate_base_values` divides by zero, so the call raises a
`ZeroDivisionError` (modelled as `none`) instead of returning a
degenerate-but-defined result as the claim states. -/
theorem calculate_base_values_zero_raises :
    calculate_base_values 0 13.8 = none := by
  simp [calculate_base_values]

/-- C3 amended: `calculate_base_values` returns a defined result exactly
when S_base ≠ 0 and V_base ≠ 0; when either is zero it raises
(`ZeroDivisionError`, modelled as `none`).  The "return 0 instead of
raising" zero-guard policy exists only in `to_pu`/`from_pu`, not here. -/
theorem calculate_base_values_isSome_iff (S V : ℝ) :
    (calculate_base_values S V).isSome ↔ (S ≠ 0 ∧ V ≠ 0) := by
  by_cases hS : S = 0
  · simp [calculate_base_values, hS]
  · by_cases hV : V = 0
    · simp [calculate_base_values, hS, hV]
    · have hd : Real.sqrt 3 * V ≠ 0 := mul_ne_zero (by positivity) hV
      simp [calculate_base_values, hS, hV, hd]

/-- Witness for the amended C3 at S_base = 100, V_base = 13.8. -/
theorem calculate_base_values_isSome_iff_witness :
    (calculate_base_values 100 13.8).isSome :=
  (calculate_base_values_isSome_iff 100 13.8).mpr ⟨by norm_num, by norm_num⟩

/-- C4: for every quantity kind, when the base relevant to that kind is
zero both `to_pu` and `from_pu` return 0 (the truthiness zero-guard) and,
being total functions, never raise; in particular
`to_pu 5 … "Resistance"` with Z_base = 0 returns 0. -/
theorem pu_zero_base_guard (v Z I V : ℚ) :
    to_pu v 0 I V "Resistance" = 0 ∧ to_pu v 0 I V "Reactance" = 0 ∧
    to_pu v 0 I V "Impedance" = 0 ∧ to_pu v 0 I V "Susceptance" = 0 ∧
    to_pu v Z I 0 "Voltage" = 0 ∧ to_pu v Z 0 V "Current" = 0 ∧
    from_pu v 0 I V "Resistance" = 0 ∧ from_pu v 0 I V "Reactance" = 0 ∧
    from_pu v 0 I V "Impedance" = 0 ∧ from_pu v 0 I V "Susceptance" = 0 ∧
    from_pu v Z I 0 "Voltage" = 0 ∧ from_pu v Z 0 V "Current" = 0 ∧
    to_pu 5 0 I V "Resistance" = 0 := by
  simp [to_pu, from_pu]

/-- C5: for every x and nonzero Z_base, the Susceptance branch of `to_pu`
computes x / (1/Z_base) = x · Z_base, and the Susceptance branch of
`from_pu` computes x · (1/Z_base) = x / Z_base. -/
theorem susceptance_symmetry (x Z I V : ℚ) (hZ : Z ≠ 0) :
    to_pu x Z I V "Susceptance" = x * Z ∧
    from_pu x Z I V "Susceptance" = x / Z := by
  have h1 : (1 : ℚ) / Z ≠ 0 := one_div_ne_zero hZ
  constructor
  · simp [to_pu, hZ, h1]
  · simp [from_pu, hZ, h1]
    field_simp

/-- Witness for C5 at x = 3, Z_base = 2. -/
theorem susceptance_symmetry_witness :
    to_pu 3 2 5 7 "Susceptance" = 3 * 2 ∧
    from_pu 3 2 5 7 "Susceptance" = 3 / 2 :=
  susceptance_symmetry 3 2 5 7 (by norm_num)

/-- C6: the per-km preprocessing multiplies the entered value by the line
length exactly for Resistance, Reactance and Susceptance when the per-km
flag is set; Voltage and Current pass through unscaled regardless of the
flag, and with the flag off every kind passes through unscaled.  Entering
0.05 per km over 10 km yields the same actual value 0.5 as entering 0.5
directly with the flag off. -/
theorem per_km_scaling (v len : ℚ) :
    per_km_actual v len true "Resistance" = v * len ∧
    per_km_actual v len true "Reactance" = v * len ∧
    per_km_actual v len true "Susceptance" = v * len ∧
    per_km_actual v len true "Voltage" = v ∧
    per_km_actual v len true "Current" = v ∧
    (∀ q : String, per_km_actual v len false q = v) ∧
    per_km_actual 0.05 10 true "Resistance" = 0.5 ∧
    per_km_actual 0.5 10 false "Resistance" = 0.5 := by
  refine ⟨?_, ?_, ?_, ?_, ?_, fun q => ?_, ?_, ?_⟩ <;>
    simp [per_km_actual] <;> norm_num

/-- C7: for `num_lines` lines, a duplicate-free sequence selection and the
fixed 5 quantity kinds, the batch loop produces exactly
`num_lines · |sequences| · 5` rows, and no two produced rows share the same
(line, sequence, kind) identity triple. -/
theorem render_results_batch (num_lines : ℕ) (sequences : List String)
    (actual_to_pu per_km : Bool) (line_length Z_base I_base V_base : ℚ)
    (entry_val : ℕ → String → String → ℚ) (hseq : sequences.Nodup) :
    (render_results num_lines sequences actual_to_pu per_km line_length
        Z_base I_base V_base entry_val).length
      = num_lines * sequences.length * 5 ∧
    ((render_results num_lines sequences actual_to_pu per_km line_length
        Z_base I_base V_base entry_val).map entryId).Nodup := by
  constructor
  · unfold render_results
    refine (length_flatMap_const _ _ (sequences.length * 5) fun i _ => ?_).trans ?_
    · exact length_flatMap_const _ _ 5 fun s _ => by simp [quantities]
    · simp [List.length_range']
      ring
  · have hmap : (render_results num_lines sequences actual_to_pu per_km line_length
        Z_base I_base V_base entry_val).map entryId
        = (List.range' 1 num_lines).flatMap fun i =>
            sequences.flatMap fun s => quantities.map fun q => (i, s, q) := by
      cases actual_to_pu <;>
        simp [render_results, entryId, List.map_flatMap, List.map_map, Function.comp_def]
    rw [hmap]
    refine List.nodup_flatMap.2 ⟨fun i _ => ?_, ?_⟩
    · refine List.nodup_flatMap.2 ⟨fun s _ => ?_, ?_⟩
      · exact quantities_nodup.map fun a b hab => by simpa using hab
      · refine List.Pairwise.imp ?_ hseq
        intro a b hab x hx1 hx2
        simp only [List.mem_map] at hx1 hx2
        obtain ⟨q1, _, rfl⟩ := hx1
        obtain ⟨q2, _, he⟩ := hx2
        exact hab (congrArg (fun p => p.2.1) he).symm
    · have hnd : (List.range' 1 num_lines).Nodup := List.nodup_range' 1 num_lines 1 one_pos
      refine List.Pairwise.imp ?_ hnd
      intro a b hab x hx1 hx2
      simp only [List.mem_flatMap, List.mem_map] at hx1 hx2
      obtain ⟨s1, _, q1, _, rfl⟩ := hx1
      obtain ⟨s2, _, q2, _, he⟩ := hx2
      exact hab (congrArg Prod.fst he).symm

/-- Witness for C7 at 2 lines and the sequence pair [Positive, Negative]. -/
theorem render_results_batch_witness :
    (render_results 2 ["Positive", "Negative"] true false 1 2 3 4
        fun _ _ _ => 1).length = 2 * 2 * 5 ∧
    ((render_results 2 ["Positive", "Negative"] true false 1 2 3 4
        fun _ _ _ => 1).map entryId).Nodup :=
  render_results_batch 2 ["Positive", "Negative"] true false 1 2 3 4
    (fun _ _ _ => 1) (by decide)

/-- C8: the capacitance converter computes value · scale[from] / scale[to];
converting with equal nonzero scales is the identity, converting a→b→a with
nonzero scales restores the value, and every scale in the table is
nonzero. -/
theorem convertUnits_spec :
    (∀ v a b : ℚ, convertUnits v a b = v * a / b) ∧
    (∀ v s : ℚ, s ≠ 0 → convertUnits v s s = v) ∧
    (∀ v a b : ℚ, a ≠ 0 → b ≠ 0 → convertUnits (convertUnits v a b) b a = v) ∧
    (∀ p ∈ capacitance_units, p.2 ≠ 0) := by
  refine ⟨fun v a b => rfl, fun v s hs => ?_, fun v a b ha hb => ?_, ?_⟩
  · unfold convertUnits
    field_simp
  · unfold convertUnits
    field_simp
  · intro p hp
    simp only [capacitance_units, List.mem_cons, List.not_mem_nil, or_false] at hp
    rcases hp with h | h | h | h | h <;> subst h <;> norm_num

/-- Witness for C8: identity conversion at scale 1e-3 and round trip
between scales 1e-3 and 1e-6, at value 3. -/
theorem convertUnits_spec_witness :
    convertUnits 3 1e-3 1e-3 = 3 ∧
    convertUnits (convertUnits 3 1e-3 1e-6) 1e-6 1e-3 = 3 :=
  ⟨convertUnits_spec.2.1 3 1e-3 (by norm_num),
   convertUnits_spec.2.2.1 3 1e-3 1e-6 (by norm_num) (by norm_num)⟩

/-- C9: for every quantity_type string outside the six recognized kinds,
both `to_pu` and `from_pu` fall through to the silent catch-all else branch
and return 0. -/
theorem pu_unknown_kind_zero (v Z I V : ℚ) (q : String)
    (hq : q ∉ ["Resistance", "Reactance", "Impedance", "Susceptance",
      "Voltage", "Current"]) :
    to_pu v Z I V q = 0 ∧ from_pu v Z I V q = 0 := by
  simp only [List.mem_cons, List.not_mem_nil, or_false, not_or] at hq
  obtain ⟨h1, h2, h3, h4, h5, h6⟩ := hq
  simp [to_pu, from_pu, h1, h2, h3, h4, h5, h6]

/-- Witness for C9 at the unrecognized kind "Admittance". -/
theorem pu_unknown_kind_zero_witness :
    to_pu 7 2 3 4 "Admittance" = 0 ∧ from_pu 7 2 3 4 "Admittance" = 0 :=
  pu_unknown_kind_zero 7 2 3 4 "Admittance" (by decide)

/-- C10: for each quantity kind, `to_pu` and `from_pu` depend only on the
single base relevant to that kind: keeping that base fixed and varying the
other two bases leaves the result unchanged (two-run noninterference). -/
theorem pu_relevant_base_noninterference (v Z I V Z2 I2 V2 : ℚ) :
    to_pu v Z I V "Resistance" = to_pu v Z I2 V2 "Resistance" ∧
    to_pu v Z I V "Reactance" = to_pu v Z I2 V2 "Reactance" ∧
    to_pu v Z I V "Impedance" = to_pu v Z I2 V2 "Impedance" ∧
    to_pu v Z I V "Susceptance" = to_pu v Z I2 V2 "Susceptance" ∧
    to_pu v Z I V "Voltage" = to_pu v Z2 I2 V "Voltage" ∧
    to_pu v Z I V "Current" = to_pu v Z2 I V2 "Current" ∧
    from_pu v Z I V "Resistance" = from_pu v Z I2 V2 "Resistance" ∧
    from_pu v Z I V "Reactance" = from_pu v Z I2 V2 "Reactance" ∧
    from_pu v Z I V "Impedance" = from_pu v Z I2 V2 "Impedance" ∧
    from_pu v Z I V "Susceptance" = from_pu v Z I2 V2 "Susceptance" ∧
    from_pu v Z I V "Voltage" = from_pu v Z2 I2 V "Voltage" ∧
    from_pu v Z I V "Current" = from_pu v Z2 I V2 "Current" := by
  simp [to_pu, from_pu]
